import Mathlib

/-!
Verification of the dump1090-exporter metric pipelines, shallowly embedded from
`src/dump1090exporter/exporter.py`.

Modelling conventions:
* Python floats are modelled as real numbers, JSON numeric fields as rationals
  (cast to the reals where the code does float arithmetic on them).
* A Python dict used as a metric label set is modelled as an association list
  built in the code's single canonical insertion order, so list equality
  coincides with dict equality for every label set the code constructs.
* The metric store (the aioprometheus `Gauge` collection) is modelled as a map
  from (metric name, label set) to the last value written by `Gauge.set`.
-/

/-- Key of one gauge sample: the metric name together with the label set passed
to `Gauge.set(labels, value)`. -/
structure GaugeKey where
  name : String
  labels : List (String × String)
  deriving DecidableEq

/-- One `Gauge.set` call: the key and the numeric value written. -/
structure GaugeWrite where
  key : GaugeKey
  value : ℝ

/-- The aircraft metric store: last value written per (name, labels) key. -/
def Store : Type := GaugeKey → Option ℝ

/-- The store before anything has been written. -/
def emptyStore : Store := fun _ => none

/-- Apply one `Gauge.set` call: a last-write-wins upsert keyed by (name, labels). -/
def setGauge (s : Store) (w : GaugeWrite) : Store :=
  fun k => if k = w.key then some w.value else s k

/-- Apply a sequence of `Gauge.set` calls in program order. -/
def applyWrites (s : Store) (ws : List GaugeWrite) : Store :=
  ws.foldl setGauge s

/-- Value of the last write to key `k` in `ws`, if any. -/
def findLast : List GaugeWrite → GaugeKey → Option ℝ
  | [], _ => none
  | w :: ws, k =>
    match findLast ws k with
    | some v => some v
    | none => if w.key = k then some w.value else none

/-- Option fallback, used to state the store lookup characterization. -/
def orElseO (a b : Option ℝ) : Option ℝ :=
  match a with
  | some v => some v
  | none => b

theorem applyWrites_apply (ws : List GaugeWrite) (s : Store) (k : GaugeKey) :
    applyWrites s ws k = orElseO (findLast ws k) (s k) := by
  induction ws generalizing s with
  | nil => rfl
  | cons w ws ih =>
    show applyWrites (setGauge s w) ws k = _
    rw [ih]
    cases h : findLast ws k with
    | some v => simp [findLast, orElseO, h]
    | none =>
      simp only [findLast, orElseO, h, setGauge]
      by_cases hk : k = w.key
      · simp [hk]
      · rw [if_neg hk, if_neg (fun h2 => hk h2.symm)]

theorem findLast_append (ws1 ws2 : List GaugeWrite) (k : GaugeKey) :
    findLast (ws1 ++ ws2) k = orElseO (findLast ws2 k) (findLast ws1 k) := by
  induction ws1 with
  | nil => cases h : findLast ws2 k <;> simp [orElseO, findLast, h]
  | cons w ws ih =>
    cases h : findLast ws2 k <;> cases h2 : findLast ws k <;>
      simp [findLast, List.cons_append, ih, orElseO, h, h2]

theorem findLast_eq_none (ws : List GaugeWrite) (k : GaugeKey)
    (h : ∀ w ∈ ws, w.key ≠ k) : findLast ws k = none := by
  induction ws with
  | nil => rfl
  | cons w ws ih =>
    simp only [findLast, ih (fun x hx => h x (List.mem_cons_of_mem _ hx))]
    rw [if_neg (h w (List.mem_cons_self _ _))]

theorem applyWrites_idem (s : Store) (ws : List GaugeWrite) :
    applyWrites (applyWrites s ws) ws = applyWrites s ws := by
  funext k
  rw [applyWrites_apply, applyWrites_apply]
  cases h : findLast ws k <;> simp [orElseO]

/-! ## Geometry module -/

/-- Position named tuple `(latitude, longitude)` in decimal degrees. -/
structure Position where
  latitude : ℝ
  longitude : ℝ

/-- Python `math.degrees`. -/
noncomputable def degrees (x : ℝ) : ℝ := x * 180 / Real.pi

/-- Python `math.radians`. -/
noncomputable def radians (x : ℝ) : ℝ := x * Real.pi / 180

/-- Python float `%`: `x - y * floor(x / y)`, in `[0, y)` for positive `y`. -/
noncomputable def pymod (x y : ℝ) : ℝ := x - y * (⌊x / y⌋ : ℝ)

/-- Python `int()` applied to a float: truncation toward zero. -/
noncomputable def pytrunc (x : ℝ) : ℤ := if 0 ≤ x then ⌊x⌋ else -⌊-x⌋

/-- Embeds `relative_angle`: direction of `pos2` relative to `pos1` in degrees.
The same-latitude special case returns 90 or 270 directly; otherwise the
`atan(dlon/dlat)` result in degrees is mapped into `[0, 360)` by adding 360
modulo 360 (northern half) or adding 180 (southern half). -/
noncomputable def relative_angle (pos1 pos2 : Position) : ℝ :=
  let lat1 := pos1.latitude
  let lon1 := pos1.longitude
  let lat2 := pos2.latitude
  let lon2 := pos2.longitude
  if lat2 = lat1 then
    if lon2 > lon1 then 90 else 270
  else
    let deg := degrees (Real.arctan ((lon2 - lon1) / (lat2 - lat1)))
    if lat2 > lat1 then pymod (360 + deg) 360 else 180 + deg

/-- Lookup table for directions; each step is 22.5 degrees. -/
def direction_lut : List String :=
  ["N", "NE", "NE", "E", "E", "SE", "SE", "S",
   "S", "SW", "SW", "W", "W", "NW", "NW", "N"]

/-- Python list indexing: a negative index wraps around once, an index outside
`[-len, len)` raises `IndexError` (modelled as `none`). -/
def pyIndex (l : List String) (i : ℤ) : Option String :=
  if 0 ≤ i then l.get? i.toNat
  else if (-i).toNat ≤ l.length then l.get? (l.length - (-i).toNat)
  else none

/-- Embeds `relative_direction`: `direction_lut[int(angle / 22.5)]`. -/
noncomputable def relative_direction (angle : ℝ) : Option String :=
  pyIndex direction_lut (pytrunc (angle / 22.5))

/-- Embeds `haversine_distance` (the radius default argument `6371.0e3` is made
an explicit argument here). -/
noncomputable def haversine_distance (pos1 pos2 : Position) (radius : ℝ) : ℝ :=
  let lat1 := radians pos1.latitude
  let lon1 := radians pos1.longitude
  let lat2 := radians pos2.latitude
  let lon2 := radians pos2.longitude
  let hav := Real.sin ((lat2 - lat1) / 2) ^ 2 +
    Real.cos lat1 * Real.cos lat2 * Real.sin ((lon2 - lon1) / 2) ^ 2
  2 * radius * Real.arcsin (Real.sqrt hav)

theorem haversine_nonneg (p q : Position) (r : ℝ) (hr : 0 ≤ r) :
    0 ≤ haversine_distance p q r := by
  simp only [haversine_distance]
  have h1 : 0 ≤ Real.arcsin (Real.sqrt (Real.sin ((radians q.latitude - radians p.latitude) / 2) ^ 2 +
      Real.cos (radians p.latitude) * Real.cos (radians q.latitude) *
        Real.sin ((radians q.longitude - radians p.longitude) / 2) ^ 2)) :=
    Real.arcsin_nonneg.mpr (Real.sqrt_nonneg _)
  have h2 : (0:ℝ) ≤ 2 * r := by linarith
  exact mul_nonneg h2 h1

theorem haversine_comm (p q : Position) (r : ℝ) :
    haversine_distance p q r = haversine_distance q p r := by
  simp only [haversine_distance]
  have h1 : (radians p.latitude - radians q.latitude) / 2 =
      -((radians q.latitude - radians p.latitude) / 2) := by ring
  have h2 : (radians p.longitude - radians q.longitude) / 2 =
      -((radians q.longitude - radians p.longitude) / 2) := by ring
  rw [h1, h2, Real.sin_neg, Real.sin_neg]
  ring_nf

theorem pymod_nonneg_lt (x y : ℝ) (hy : 0 < y) : 0 ≤ pymod x y ∧ pymod x y < y := by
  have hfr : pymod x y = y * Int.fract (x / y) := by
    rw [pymod, Int.fract, mul_sub, mul_div_cancel₀ _ hy.ne']
  constructor
  · rw [hfr]
    exact mul_nonneg hy.le (Int.fract_nonneg _)
  · rw [hfr]
    calc y * Int.fract (x / y) < y * 1 :=
          mul_lt_mul_of_pos_left (Int.fract_lt_one _) hy
      _ = y := mul_one y

theorem degrees_arctan_lt (q : ℝ) : degrees (Real.arctan q) < 90 := by
  rw [degrees, div_lt_iff Real.pi_pos]
  have h := Real.arctan_lt_pi_div_two q
  linarith

theorem neg_lt_degrees_arctan (q : ℝ) : -90 < degrees (Real.arctan q) := by
  rw [degrees, lt_div_iff Real.pi_pos]
  have h := Real.neg_pi_div_two_lt_arctan q
  linarith

theorem relative_angle_range (p1 p2 : Position) :
    0 ≤ relative_angle p1 p2 ∧ relative_angle p1 p2 < 360 := by
  simp only [relative_angle]
  split_ifs with h1 h2 h3
  · exact ⟨by norm_num, by norm_num⟩
  · exact ⟨by norm_num, by norm_num⟩
  · exact pymod_nonneg_lt _ _ (by norm_num)
  · have ha := degrees_arctan_lt
      ((p2.longitude - p1.longitude) / (p2.latitude - p1.latitude))
    have hb := neg_lt_degrees_arctan
      ((p2.longitude - p1.longitude) / (p2.latitude - p1.latitude))
    exact ⟨by linarith, by linarith⟩

theorem direction_lut_ok : ∀ n < 16,
    (direction_lut.get? n).isSome = true ∧
    ((direction_lut.get? n).getD "N") ∈
      (["N", "NE", "E", "SE", "S", "SW", "W", "NW"] : List String) := by decide

theorem relative_direction_valid (a : ℝ) (h0 : 0 ≤ a) (h360 : a < 360) :
    (relative_direction a).isSome = true ∧
    ((relative_direction a).getD "N") ∈
      (["N", "NE", "E", "SE", "S", "SW", "W", "NW"] : List String) := by
  have hq : 0 ≤ a / 22.5 := div_nonneg h0 (by norm_num)
  have hlt : a / 22.5 < 16 := by
    rw [div_lt_iff (by norm_num : (0:ℝ) < 22.5)]
    linarith
  have hfl0 : 0 ≤ ⌊a / 22.5⌋ := Int.floor_nonneg.mpr hq
  have hfl16 : ⌊a / 22.5⌋ < 16 := by
    have := Int.floor_lt.mpr (by exact_mod_cast hlt : a / 22.5 < ((16:ℤ) : ℝ))
    exact this
  have hnat : (⌊a / 22.5⌋).toNat < 16 := by omega
  have hrw : relative_direction a = direction_lut.get? (⌊a / 22.5⌋).toNat := by
    rw [relative_direction, pytrunc, if_pos hq, pyIndex, if_pos hfl0]
  rw [hrw]
  exact direction_lut_ok _ hnat

theorem relative_direction_zero : relative_direction 0 = some "N" := by
  have h : (0:ℝ) / 22.5 = 0 := zero_div _
  rw [relative_direction, h, pytrunc, if_pos le_rfl, Int.floor_zero]
  rfl

/-! ## Aircraft data model

An aircraft snapshot entry is modelled structurally. `process_aircraft` first
normalizes every entry with `entry.setdefault(key, None)` for each key in
`AircraftKeys`; for those keys an absent key and an explicit `null` are
indistinguishable afterwards, so both are modelled as `none`. The keys
`alt_geom`, `alt_baro`, `true_heading` and `mag_heading` are NOT in
`AircraftKeys` and are probed with `"..." in a`, so for them `none` models an
absent key. `lat`, `lon` and `seen` are modelled as required numerics: dump1090
emits `lat`/`lon` whenever `seen_pos` is present, and the code reads them only
under the `seen_pos` guard; `seen` is always present in the feed. -/

/-- Numeric-or-`'ground'` altitude field value. -/
inductive AltVal
  | ground
  | num (q : ℚ)
  deriving DecidableEq

/-- One entry of `aircraft["aircraft"]`. -/
structure Observation where
  hex : String
  flight : Option String
  lat : ℚ
  lon : ℚ
  alt_baro : Option AltVal
  alt_geom : Option AltVal
  track : Option ℚ
  true_heading : Option ℚ
  mag_heading : Option ℚ
  seen : ℚ
  seen_pos : Option ℚ
  mlat : Option (List String)
  deriving DecidableEq

/-- Keys force-inserted (with value `None`) into every observation dict by the
normalization loop `entry.setdefault(key, None)` in `process_aircraft`. -/
def AircraftKeys : List String :=
  ["altitude", "category", "flight", "hex", "lat", "lon", "messages", "mlat",
   "nucp", "rssi", "seen", "seen_pos", "speed", "squalk", "tisb", "track",
   "vert_rate", "rel_angle", "rel_direction"]

/-- Heading selection in `process_aircraft`: `if "track" in a: heading =
a["track"] elif "true_heading" in a: ... elif "mag_heading" in a: ...`.
After normalization the `"track"` key is always present because `"track"` is
listed in `AircraftKeys`, so the first branch is always taken (with value
possibly `None`) and the `true_heading`/`mag_heading` branches are dead code;
for the other two keys presence means presence in the raw entry. The gauge is
set only when the selected value is not `None`. -/
def heading_value (a : Observation) : Option ℚ :=
  if AircraftKeys.contains "track" || a.track.isSome then a.track
  else if a.true_heading.isSome then a.true_heading
  else if a.mag_heading.isSome then a.mag_heading
  else none

/-- Knowledge-base record: the optional `"r"` (registration) and `"t"` (type)
fields of an aircraft database entry. -/
structure KBRec where
  r : Option String
  t : Option String
  deriving DecidableEq

/-- Knowledge base: mapping from upper-case identifier to record. -/
def KB : Type := List (String × KBRec)

/-- Python `str.upper()`, modelled as upper-casing every character. -/
def pyUpper (s : String) : String := ⟨s.data.map Char.toUpper⟩

/-- The lookup `a["hex"].upper() in self.knowledge_base.aircraft.keys()` and the
subsequent indexing: the observed identifier is upper-cased before the lookup. -/
def kbLookup (kb : KB) (hexCode : String) : Option KBRec :=
  (kb.find? fun e => e.1 = pyUpper hexCode).map Prod.snd

/-- The `plane_data` label dict built per aircraft: `hex` always; `flight` when
the (stripped) callsign is truthy; `reg`/`type` when the knowledge-base record
found for the upper-cased identifier carries them. -/
def plane_data (kb : KB) (a : Observation) : List (String × String) :=
  let flight_no : Option String :=
    match a.flight with
    | some s => if s ≠ "" then some s.trim else none
    | none => none
  [("hex", a.hex)]
  ++ (match flight_no with
      | some f => if f ≠ "" then [("flight", f)] else []
      | none => [])
  ++ (match kbLookup kb a.hex with
      | some kp =>
        (match kp.r with
         | some r => [("reg", r)]
         | none => [])
        ++ (match kp.t with
            | some t => [("type", t)]
            | none => [])
      | none => [])

/-- The per-aircraft `Gauge.set` calls made inside the position branch, in
program order: `lat`, `lon`, `alt` (geometric preferred over barometric,
`'ground'` mapped to 0, nothing when neither key is present), `heading` (only
when the selected heading value is not `None`). -/
noncomputable def perAircraftWrites (kb : KB) (a : Observation) : List GaugeWrite :=
  let pd := plane_data kb a
  [⟨⟨"lat", pd⟩, (a.lat : ℝ)⟩, ⟨⟨"lon", pd⟩, (a.lon : ℝ)⟩]
  ++ (match a.alt_geom with
      | some AltVal.ground => [⟨⟨"alt", pd⟩, 0⟩]
      | some (AltVal.num q) => [⟨⟨"alt", pd⟩, (q : ℝ)⟩]
      | none =>
        match a.alt_baro with
        | some AltVal.ground => [⟨⟨"alt", pd⟩, 0⟩]
        | some (AltVal.num q) => [⟨⟨"alt", pd⟩, (q : ℝ)⟩]
        | none => [])
  ++ (match heading_value a with
      | some h => [⟨⟨"heading", pd⟩, (h : ℝ)⟩]
      | none => [])

/-- The guard `if a["seen_pos"] and a["seen_pos"] < threshold`: `seen_pos` must
be non-null, truthy (nonzero) and strictly below the threshold. -/
def seenPosOk (a : Observation) (threshold : ℚ) : Bool :=
  match a.seen_pos with
  | some q => decide (q ≠ 0) && decide (q < threshold)
  | none => false

/-- The guard `if a["mlat"] and "lat" in a["mlat"]`. -/
def mlatOk (a : Observation) : Bool :=
  match a.mlat with
  | some l => !l.isEmpty && l.contains "lat"
  | none => false

/-- Accumulator state of the observation loop in `process_aircraft`, plus the
per-aircraft `Gauge.set` calls performed so far. -/
structure AcState where
  observed : ℕ
  with_pos : ℕ
  with_mlat : ℕ
  max_range : ℝ
  dirCount : String → ℕ
  dirMax : String → ℝ
  writes : List GaugeWrite

/-- Initial accumulator: all counters zero, both direction dicts all-zero. -/
def initAcState : AcState := ⟨0, 0, 0, 0, fun _ => 0, fun _ => 0, []⟩

/-- The `if self.origin:` block of the loop body: update the overall maximum
range, classify the bearing into a direction and update the per-direction count
and maximum range. `relative_direction` always yields one of the eight labels
for angles produced by `relative_angle` (proved below), so the `getD` default
standing in for Python's `KeyError` is never used. -/
noncomputable def originUpdate (origin : Option Position) (st : AcState) (a : Observation) : AcState :=
  match origin with
  | none => st
  | some o =>
    let pos : Position := ⟨(a.lat : ℝ), (a.lon : ℝ)⟩
    let distance := haversine_distance o pos 6371000
    let st1 := if st.max_range < distance then { st with max_range := distance } else st
    let dir := (relative_direction (relative_angle o pos)).getD "KeyError"
    let st2 := { st1 with dirCount := Function.update st1.dirCount dir (st1.dirCount dir + 1) }
    if st2.dirMax dir < distance then
      { st2 with dirMax := Function.update st2.dirMax dir distance }
    else st2

/-- One iteration of `for a in aircraft["aircraft"]`: count `observed` when the
message age is below the threshold; independently, when the position guard
passes, count `with_pos`, emit the per-aircraft gauges, run the origin block and
count `with_mlat`. -/
noncomputable def stepAircraft (origin : Option Position) (kb : KB) (threshold : ℚ)
    (st : AcState) (a : Observation) : AcState :=
  let st1 := if a.seen < threshold then { st with observed := st.observed + 1 } else st
  if seenPosOk a threshold then
    let st2 := { st1 with
      with_pos := st1.with_pos + 1,
      writes := st1.writes ++ perAircraftWrites kb a }
    let st3 := originUpdate origin st2 a
    if mlatOk a then { st3 with with_mlat := st3.with_mlat + 1 } else st3
  else st1

/-- An aircraft document `{"messages": ..., "aircraft": [...]}`. -/
structure Snapshot where
  messages : ℚ
  aircraft : List Observation

/-- Final accumulator state after the observation loop. -/
noncomputable def aircraftState (doc : Snapshot) (origin : Option Position) (kb : KB)
    (threshold : ℚ) : AcState :=
  doc.aircraft.foldl (stepAircraft origin kb threshold) initAcState

/-- The fixed `latest` time-period label set of the summary gauges. -/
def latestLabels : List (String × String) := [("time_period", "latest")]

/-- Insertion order of the `aircraft_direction` dicts. -/
def Directions : List String := ["N", "NE", "E", "SE", "S", "SW", "W", "NW"]

/-- The five summary `Gauge.set` calls after the loop. -/
noncomputable def summaryWrites (acc : AcState) (messages : ℚ) : List GaugeWrite :=
  [⟨⟨"observed", latestLabels⟩, (acc.observed : ℝ)⟩,
   ⟨⟨"observed_with_pos", latestLabels⟩, (acc.with_pos : ℝ)⟩,
   ⟨⟨"observed_with_mlat", latestLabels⟩, (acc.with_mlat : ℝ)⟩,
   ⟨⟨"max_range", latestLabels⟩, acc.max_range⟩,
   ⟨⟨"messages_total", latestLabels⟩, (messages : ℝ)⟩]

/-- The sixteen per-direction `Gauge.set` calls (count and max range for each of
the eight directions, always emitted). -/
noncomputable def directionWrites (acc : AcState) : List GaugeWrite :=
  (Directions.map fun dir =>
    [⟨⟨"observed_with_direction", [("time_period", "latest"), ("direction", dir)]⟩,
        (acc.dirCount dir : ℝ)⟩,
     ⟨⟨"max_range_by_direction", [("time_period", "latest"), ("direction", dir)]⟩,
        acc.dirMax dir⟩]).join

/-- All `Gauge.set` calls of one `process_aircraft` run, in program order. -/
noncomputable def aircraftWrites (doc : Snapshot) (origin : Option Position) (kb : KB)
    (threshold : ℚ) : List GaugeWrite :=
  let acc := aircraftState doc origin kb threshold
  acc.writes ++ summaryWrites acc doc.messages ++ directionWrites acc

/-- Embeds `process_aircraft` (the `threshold` default argument 15 is made
explicit): apply every `Gauge.set` call to the store. -/
noncomputable def process_aircraft (st : Store) (doc : Snapshot) (origin : Option Position)
    (kb : KB) (threshold : ℚ) : Store :=
  applyWrites st (aircraftWrites doc origin kb threshold)

theorem originUpdate_observed (origin : Option Position) (st : AcState) (a : Observation) :
    (originUpdate origin st a).observed = st.observed := by
  cases origin with
  | none => rfl
  | some o =>
    simp only [originUpdate]
    split_ifs <;> rfl

theorem originUpdate_with_pos (origin : Option Position) (st : AcState) (a : Observation) :
    (originUpdate origin st a).with_pos = st.with_pos := by
  cases origin with
  | none => rfl
  | some o =>
    simp only [originUpdate]
    split_ifs <;> rfl

theorem originUpdate_with_mlat (origin : Option Position) (st : AcState) (a : Observation) :
    (originUpdate origin st a).with_mlat = st.with_mlat := by
  cases origin with
  | none => rfl
  | some o =>
    simp only [originUpdate]
    split_ifs <;> rfl

theorem originUpdate_writes (origin : Option Position) (st : AcState) (a : Observation) :
    (originUpdate origin st a).writes = st.writes := by
  cases origin with
  | none => rfl
  | some o =>
    simp only [originUpdate]
    split_ifs <;> rfl

theorem originUpdate_max_range (o : Position) (st : AcState) (a : Observation) :
    (originUpdate (some o) st a).max_range =
      (if st.max_range < haversine_distance o ⟨(a.lat : ℝ), (a.lon : ℝ)⟩ 6371000 then
        haversine_distance o ⟨(a.lat : ℝ), (a.lon : ℝ)⟩ 6371000
      else st.max_range) := by
  simp only [originUpdate]
  split_ifs <;> rfl

theorem originUpdate_dirCount (o : Position) (st : AcState) (a : Observation) :
    (originUpdate (some o) st a).dirCount =
      (let dir := (relative_direction
          (relative_angle o ⟨(a.lat : ℝ), (a.lon : ℝ)⟩)).getD "KeyError"
       Function.update st.dirCount dir (st.dirCount dir + 1)) := by
  simp only [originUpdate]
  split_ifs <;> rfl

theorem stepAircraft_observed (origin : Option Position) (kb : KB) (threshold : ℚ)
    (st : AcState) (a : Observation) :
    (stepAircraft origin kb threshold st a).observed =
      st.observed + (if a.seen < threshold then 1 else 0) := by
  by_cases hs : a.seen < threshold <;>
    cases hsp : seenPosOk a threshold <;>
    cases hml : mlatOk a <;>
    simp [stepAircraft, hs, hsp, hml, originUpdate_observed]

theorem stepAircraft_with_pos (origin : Option Position) (kb : KB) (threshold : ℚ)
    (st : AcState) (a : Observation) :
    (stepAircraft origin kb threshold st a).with_pos =
      st.with_pos + (if seenPosOk a threshold then 1 else 0) := by
  by_cases hs : a.seen < threshold <;>
    cases hsp : seenPosOk a threshold <;>
    cases hml : mlatOk a <;>
    simp [stepAircraft, hs, hsp, hml, originUpdate_with_pos]

theorem stepAircraft_with_mlat (origin : Option Position) (kb : KB) (threshold : ℚ)
    (st : AcState) (a : Observation) :
    (stepAircraft origin kb threshold st a).with_mlat =
      st.with_mlat + (if seenPosOk a threshold && mlatOk a then 1 else 0) := by
  by_cases hs : a.seen < threshold <;>
    cases hsp : seenPosOk a threshold <;>
    cases hml : mlatOk a <;>
    simp [stepAircraft, hs, hsp, hml, originUpdate_with_mlat]

theorem stepAircraft_writes (origin : Option Position) (kb : KB) (threshold : ℚ)
    (st : AcState) (a : Observation) :
    (stepAircraft origin kb threshold st a).writes =
      st.writes ++ (if seenPosOk a threshold then perAircraftWrites kb a else []) := by
  by_cases hs : a.seen < threshold <;>
    cases hsp : seenPosOk a threshold <;>
    cases hml : mlatOk a <;>
    simp [stepAircraft, hs, hsp, hml, originUpdate_writes]

theorem foldl_observed (origin : Option Position) (kb : KB) (threshold : ℚ)
    (l : List Observation) (st : AcState) :
    (l.foldl (stepAircraft origin kb threshold) st).observed =
      st.observed + (l.countP fun a => decide (a.seen < threshold)) := by
  induction l generalizing st with
  | nil => simp
  | cons a l ih =>
    simp only [List.foldl_cons, ih, stepAircraft_observed, List.countP_cons]
    by_cases h : a.seen < threshold <;> (simp [h]; try omega)

theorem foldl_with_pos (origin : Option Position) (kb : KB) (threshold : ℚ)
    (l : List Observation) (st : AcState) :
    (l.foldl (stepAircraft origin kb threshold) st).with_pos =
      st.with_pos + (l.countP fun a => seenPosOk a threshold) := by
  induction l generalizing st with
  | nil => simp
  | cons a l ih =>
    simp only [List.foldl_cons, ih, stepAircraft_with_pos, List.countP_cons]
    cases h : seenPosOk a threshold <;> (simp [h]; try omega)

theorem foldl_with_mlat (origin : Option Position) (kb : KB) (threshold : ℚ)
    (l : List Observation) (st : AcState) :
    (l.foldl (stepAircraft origin kb threshold) st).with_mlat =
      st.with_mlat + (l.countP fun a => seenPosOk a threshold && mlatOk a) := by
  induction l generalizing st with
  | nil => simp
  | cons a l ih =>
    simp only [List.foldl_cons, ih, stepAircraft_with_mlat, List.countP_cons]
    cases h : seenPosOk a threshold && mlatOk a <;> (simp [h]; try omega)

theorem perAircraftWrites_names (kb : KB) (a : Observation) :
    ∀ w ∈ perAircraftWrites kb a,
      w.key.name ∈ (["lat", "lon", "alt", "heading"] : List String) := by
  intro w hw
  simp only [perAircraftWrites, List.mem_append] at hw
  rcases hw with (h | h) | h
  · simp only [List.mem_cons, List.not_mem_nil, or_false] at h
    rcases h with h | h <;> subst h <;> simp
  · rcases hg : a.alt_geom with _ | av
    · rcases hb : a.alt_baro with _ | av2
      · simp [hg, hb] at h
      · cases av2 <;> simp only [hg, hb] at h <;>
          simp only [List.mem_cons, List.not_mem_nil, or_false] at h <;>
          subst h <;> simp
    · cases av <;> simp only [hg] at h <;>
        simp only [List.mem_cons, List.not_mem_nil, or_false] at h <;>
        subst h <;> simp
  · rcases hh : heading_value a with _ | hv
    · simp [hh] at h
    · simp only [hh, List.mem_cons, List.not_mem_nil, or_false] at h
      subst h
      simp

theorem foldl_writes_names (origin : Option Position) (kb : KB) (threshold : ℚ)
    (l : List Observation) (st : AcState)
    (hst : ∀ w ∈ st.writes, w.key.name ∈ (["lat", "lon", "alt", "heading"] : List String)) :
    ∀ w ∈ (l.foldl (stepAircraft origin kb threshold) st).writes,
      w.key.name ∈ (["lat", "lon", "alt", "heading"] : List String) := by
  induction l generalizing st with
  | nil => exact hst
  | cons a l ih =>
    intro w hw
    refine ih (stepAircraft origin kb threshold st a) ?_ w hw
    intro w2 hw2
    rw [stepAircraft_writes] at hw2
    rcases List.mem_append.mp hw2 with h | h
    · exact hst w2 h
    · rcases hsp : seenPosOk a threshold with _ | _ <;> rw [hsp] at h
      · simp at h
      · exact perAircraftWrites_names kb a w2 h

theorem directionWrites_names (acc : AcState) :
    ∀ w ∈ directionWrites acc,
      w.key.name ∈ (["observed_with_direction", "max_range_by_direction"] : List String) := by
  intro w hw
  simp only [directionWrites, List.mem_join, List.mem_map] at hw
  obtain ⟨l, ⟨dir, hdir, rfl⟩, hwl⟩ := hw
  simp only [List.mem_cons, List.not_mem_nil, or_false] at hwl
  rcases hwl with h | h <;> subst h <;> simp

theorem orElseO_none_mid (f : Option ℝ) (b : Option ℝ) :
    orElseO (orElseO f none) b = orElseO f b := by
  cases f <;> rfl

theorem lookup_summary_key (doc : Snapshot) (origin : Option Position) (kb : KB)
    (threshold : ℚ) (st : Store) (k : GaugeKey)
    (hk : ¬ k.name ∈ (["lat", "lon", "alt", "heading"] : List String)) :
    process_aircraft st doc origin kb threshold k =
      orElseO (findLast (summaryWrites (aircraftState doc origin kb threshold) doc.messages ++
        directionWrites (aircraftState doc origin kb threshold)) k) (st k) := by
  rw [process_aircraft, applyWrites_apply]
  have h1 : aircraftWrites doc origin kb threshold =
      (aircraftState doc origin kb threshold).writes ++
        (summaryWrites (aircraftState doc origin kb threshold) doc.messages ++
         directionWrites (aircraftState doc origin kb threshold)) := by
    rw [aircraftWrites, List.append_assoc]
  rw [h1, findLast_append]
  have hnone : findLast (aircraftState doc origin kb threshold).writes k = none := by
    apply findLast_eq_none
    intro w hw hcontra
    apply hk
    have hmem := foldl_writes_names origin kb threshold doc.aircraft initAcState
      (by intro w2 hw2; simp [initAcState] at hw2) w hw
    rwa [hcontra] at hmem
  rw [hnone, orElseO_none_mid]

theorem lookup_observed (doc : Snapshot) (origin : Option Position) (kb : KB)
    (threshold : ℚ) (st : Store) :
    process_aircraft st doc origin kb threshold ⟨"observed", latestLabels⟩ =
      some ((aircraftState doc origin kb threshold).observed : ℝ) := by
  rw [lookup_summary_key _ _ _ _ _ _ (by simp), findLast_append]
  have hdir : findLast (directionWrites (aircraftState doc origin kb threshold))
      ⟨"observed", latestLabels⟩ = none := by
    apply findLast_eq_none
    intro w hw hcontra
    have hmem := directionWrites_names _ w hw
    rw [hcontra] at hmem
    simp at hmem
  have hsum : findLast (summaryWrites (aircraftState doc origin kb threshold) doc.messages)
      ⟨"observed", latestLabels⟩ =
      some ((aircraftState doc origin kb threshold).observed : ℝ) := by
    simp [summaryWrites, findLast, GaugeKey.mk.injEq]
  rw [hdir, hsum]
  rfl

theorem lookup_with_pos (doc : Snapshot) (origin : Option Position) (kb : KB)
    (threshold : ℚ) (st : Store) :
    process_aircraft st doc origin kb threshold ⟨"observed_with_pos", latestLabels⟩ =
      some ((aircraftState doc origin kb threshold).with_pos : ℝ) := by
  rw [lookup_summary_key _ _ _ _ _ _ (by simp), findLast_append]
  have hdir : findLast (directionWrites (aircraftState doc origin kb threshold))
      ⟨"observed_with_pos", latestLabels⟩ = none := by
    apply findLast_eq_none
    intro w hw hcontra
    have hmem := directionWrites_names _ w hw
    rw [hcontra] at hmem
    simp at hmem
  have hsum : findLast (summaryWrites (aircraftState doc origin kb threshold) doc.messages)
      ⟨"observed_with_pos", latestLabels⟩ =
      some ((aircraftState doc origin kb threshold).with_pos : ℝ) := by
    simp [summaryWrites, findLast, GaugeKey.mk.injEq]
  rw [hdir, hsum]
  rfl

theorem lookup_with_mlat (doc : Snapshot) (origin : Option Position) (kb : KB)
    (threshold : ℚ) (st : Store) :
    process_aircraft st doc origin kb threshold ⟨"observed_with_mlat", latestLabels⟩ =
      some ((aircraftState doc origin kb threshold).with_mlat : ℝ) := by
  rw [lookup_summary_key _ _ _ _ _ _ (by simp), findLast_append]
  have hdir : findLast (directionWrites (aircraftState doc origin kb threshold))
      ⟨"observed_with_mlat", latestLabels⟩ = none := by
    apply findLast_eq_none
    intro w hw hcontra
    have hmem := directionWrites_names _ w hw
    rw [hcontra] at hmem
    simp at hmem
  have hsum : findLast (summaryWrites (aircraftState doc origin kb threshold) doc.messages)
      ⟨"observed_with_mlat", latestLabels⟩ =
      some ((aircraftState doc origin kb threshold).with_mlat : ℝ) := by
    simp [summaryWrites, findLast, GaugeKey.mk.injEq]
  rw [hdir, hsum]
  rfl

theorem lookup_max_range (doc : Snapshot) (origin : Option Position) (kb : KB)
    (threshold : ℚ) (st : Store) :
    process_aircraft st doc origin kb threshold ⟨"max_range", latestLabels⟩ =
      some ((aircraftState doc origin kb threshold).max_range) := by
  rw [lookup_summary_key _ _ _ _ _ _ (by simp), findLast_append]
  have hdir : findLast (directionWrites (aircraftState doc origin kb threshold))
      ⟨"max_range", latestLabels⟩ = none := by
    apply findLast_eq_none
    intro w hw hcontra
    have hmem := directionWrites_names _ w hw
    rw [hcontra] at hmem
    simp at hmem
  have hsum : findLast (summaryWrites (aircraftState doc origin kb threshold) doc.messages)
      ⟨"max_range", latestLabels⟩ =
      some ((aircraftState doc origin kb threshold).max_range) := by
    simp [summaryWrites, findLast, GaugeKey.mk.injEq]
  rw [hdir, hsum]
  rfl

theorem lookup_messages (doc : Snapshot) (origin : Option Position) (kb : KB)
    (threshold : ℚ) (st : Store) :
    process_aircraft st doc origin kb threshold ⟨"messages_total", latestLabels⟩ =
      some ((doc.messages : ℝ)) := by
  rw [lookup_summary_key _ _ _ _ _ _ (by simp), findLast_append]
  have hdir : findLast (directionWrites (aircraftState doc origin kb threshold))
      ⟨"messages_total", latestLabels⟩ = none := by
    apply findLast_eq_none
    intro w hw hcontra
    have hmem := directionWrites_names _ w hw
    rw [hcontra] at hmem
    simp at hmem
  have hsum : findLast (summaryWrites (aircraftState doc origin kb threshold) doc.messages)
      ⟨"messages_total", latestLabels⟩ = some ((doc.messages : ℝ)) := by
    simp [summaryWrites, findLast, GaugeKey.mk.injEq]
  rw [hdir, hsum]
  rfl

theorem lookup_direction_W (doc : Snapshot) (origin : Option Position) (kb : KB)
    (threshold : ℚ) (st : Store) :
    process_aircraft st doc origin kb threshold
        ⟨"observed_with_direction", [("time_period", "latest"), ("direction", "W")]⟩ =
      some ((aircraftState doc origin kb threshold).dirCount "W" : ℝ) := by
  rw [lookup_summary_key _ _ _ _ _ _ (by simp), findLast_append]
  have hsum : findLast (summaryWrites (aircraftState doc origin kb threshold) doc.messages)
      ⟨"observed_with_direction", [("time_period", "latest"), ("direction", "W")]⟩ =
      none := by
    simp [summaryWrites, findLast, GaugeKey.mk.injEq, latestLabels]
  have hdir : findLast (directionWrites (aircraftState doc origin kb threshold))
      ⟨"observed_with_direction", [("time_period", "latest"), ("direction", "W")]⟩ =
      some ((aircraftState doc origin kb threshold).dirCount "W" : ℝ) := by
    simp [directionWrites, Directions, findLast, GaugeKey.mk.injEq]
  rw [hdir, hsum]
  rfl

/-! ## Statistics pipeline -/

/-- JSON-ish value inside a statistics time-period object. -/
inductive SVal
  | num (q : ℚ)
  | list (l : List ℚ)
  | obj (m : List (String × SVal))

/-- A value written to a statistics gauge: a number, `math.nan` for a missing
field, or a non-numeric JSON value stored as-is by `Gauge.set`. -/
inductive SGVal
  | val (q : ℚ)
  | nan
  | other
  deriving DecidableEq

/-- One statistics gauge write: (group key, metric name, time period, value). -/
structure StatsWrite where
  group : String
  name : String
  time_period : String
  value : SGVal
  deriving DecidableEq

/-- Result of a `process_stats` run: the `Gauge.set` calls performed in program
order, the "Problem extracting item" warnings logged, and the uncaught exception
if one was raised. Partial writes persist because gauges are set as the loops
progress and the exception is only caught by the caller (`updater_stats`). -/
structure StatsRun where
  writes : List StatsWrite
  warnings : List String
  error : Option String
  deriving DecidableEq

/-- Python dict lookup on a string-keyed object. -/
def lookupStr {α : Type} (m : List (String × α)) (k : String) : Option α :=
  (m.find? fun e => e.1 = k).map Prod.snd

/-- The inner try/except of `process_stats`: `value = d[name]`, a single-element
list is unwrapped to its first element (an empty list would raise `IndexError`),
and a `KeyError` is caught and turned into `math.nan`, logging a warning unless
the name is `peak_signal` or `signal`. Indexing a non-dict raises `TypeError`,
which is not caught. -/
def statsName (d : SVal) (name : String) : Except String (SGVal × List String) :=
  match d with
  | SVal.obj m =>
    match lookupStr m name with
    | some (SVal.num q) => Except.ok (SGVal.val q, [])
    | some (SVal.list []) => Except.error "IndexError"
    | some (SVal.list (q :: _)) => Except.ok (SGVal.val q, [])
    | some (SVal.obj _) => Except.ok (SGVal.other, [])
    | none =>
      Except.ok (SGVal.nan, if name ∈ ["peak_signal", "signal"] then [] else [name])
  | _ => Except.error "TypeError"

/-- The loop `for name, metric in gauge.items()` over one group's metric names. -/
def statsNames (group tp : String) (d : SVal) : List String → StatsRun
  | [] => ⟨[], [], none⟩
  | n :: rest =>
    match statsName d n with
    | Except.error e => ⟨[], [], some e⟩
    | Except.ok (v, warn) =>
      let r := statsNames group tp d rest
      ⟨⟨group, n, tp, v⟩ :: r.writes, warn ++ r.warnings, r.error⟩

/-- The group resolution `d = tp_stats[key] if key else tp_stats`. It happens
outside any try/except, so a missing group key raises an uncaught `KeyError`
(and indexing a non-dict time period an uncaught `TypeError`). -/
def statsGroupResolve (tpv : SVal) (key : String) : Except String SVal :=
  if key = "" then Except.ok tpv
  else
    match tpv with
    | SVal.obj m =>
      match lookupStr m key with
      | some dv => Except.ok dv
      | none => Except.error "KeyError"
    | _ => Except.error "TypeError"

/-- Sequencing of two pipeline stages: if the first raised, its partial writes
stand and nothing later runs; otherwise the writes and warnings accumulate. -/
def andThenRun (r1 r2 : StatsRun) : StatsRun :=
  match r1.error with
  | some _ => r1
  | none => ⟨r1.writes ++ r2.writes, r1.warnings ++ r2.warnings, r2.error⟩

/-- The loop `for key, gauge in metrics.items()` over the configured groups of
one time period. -/
def statsGroups (tp : String) (tpv : SVal) : List (String × List String) → StatsRun
  | [] => ⟨[], [], none⟩
  | (key, names) :: rest =>
    match statsGroupResolve tpv key with
    | Except.error e => ⟨[], [], some e⟩
    | Except.ok dv => andThenRun (statsNames key tp dv names) (statsGroups tp tpv rest)

/-- Embeds `process_stats`: iterate the configured time periods; a missing time
period raises a `KeyError` that IS caught (`except KeyError: ...; continue`), so
the remaining periods are still processed. Any other error aborts the run,
keeping the writes already performed. -/
def process_stats (specs : List (String × List String)) (stats : List (String × SVal)) :
    List String → StatsRun
  | [] => ⟨[], [], none⟩
  | tp :: rest =>
    match lookupStr stats tp with
    | none => process_stats specs stats rest
    | some tpv => andThenRun (statsGroups tp tpv specs) (process_stats specs stats rest)

/-- Modelled from the spec: the fixed specification table `Specs["stats"]` lives
in `dump1090exporter/metrics.py`, which is not part of the sources. Per the
spec (§4.6, §6) the table maps group keys — the empty key standing for the
top-level time-period object itself, and nested groups such as `local` and
`cpr` — to metric names, among them `signal`, `peak_signal` (both optional in
the feed) and `accepted`; `messages` is a top-level per-period count. -/
def StatsSpecsModel : List (String × List String) :=
  [("", ["messages"]), ("local", ["accepted", "signal", "peak_signal"])]

/-! ## Polling loops -/

/-- The statistics metric store, keyed by (group, name, time_period). -/
def StatsStore : Type := String × String × String → Option SGVal

def setStatsGauge (s : StatsStore) (w : StatsWrite) : StatsStore :=
  fun k => if k = (w.group, w.name, w.time_period) then some w.value else s k

def applyStatsWrites (s : StatsStore) (ws : List StatsWrite) : StatsStore :=
  ws.foldl setStatsGauge s

/-- One cycle of the `updater_aircraft` loop body: try fetch-and-process — on
any error the store is left as it was and the error is only logged — then
compute the time to sleep as `(start + interval) - now`. -/
noncomputable def updater_aircraft_cycle (st : Store) (fetched : Except String Snapshot)
    (origin : Option Position) (kb : KB) (start now interval : ℚ) : Store × ℚ :=
  ((match fetched with
    | Except.ok doc => process_aircraft st doc origin kb 15
    | Except.error _ => st),
   start + interval - now)

/-- The `while True` loop of `updater_aircraft`, run over a finite trace of
cycles, each given as (fetch outcome, start time, end time). Returns the final
store and the wait computed by every cycle. -/
noncomputable def run_updater_aircraft (origin : Option Position) (kb : KB) (interval : ℚ) :
    Store → List (Except String Snapshot × ℚ × ℚ) → Store × List ℚ
  | st, [] => (st, [])
  | st, c :: rest =>
    let r1 := updater_aircraft_cycle st c.1 origin kb c.2.1 c.2.2 interval
    let r2 := run_updater_aircraft origin kb interval r1.1 rest
    (r2.1, r1.2 :: r2.2)

/-- One cycle of the `updater_stats` loop body: on a fetch error the store is
untouched; on success the `Gauge.set` calls that `process_stats` performed are
applied — including the partial writes of a run that raised, since the
exception is caught only at the loop boundary after the sets already happened. -/
def updater_stats_cycle (st : StatsStore) (fetched : Except String (List (String × SVal)))
    (specs : List (String × List String)) (tps : List String)
    (start now interval : ℚ) : StatsStore × ℚ :=
  ((match fetched with
    | Except.ok doc => applyStatsWrites st (process_stats specs doc tps).writes
    | Except.error _ => st),
   start + interval - now)

/-- The `while True` loop of `updater_stats` over a finite trace of cycles. -/
def run_updater_stats (specs : List (String × List String)) (tps : List String) (interval : ℚ) :
    StatsStore → List (Except String (List (String × SVal)) × ℚ × ℚ) → StatsStore × List ℚ
  | st, [] => (st, [])
  | st, c :: rest =>
    let r1 := updater_stats_cycle st c.1 specs tps c.2.1 c.2.2 interval
    let r2 := run_updater_stats specs tps interval r1.1 rest
    (r2.1, r1.2 :: r2.2)

theorem run_updater_aircraft_length (origin : Option Position) (kb : KB) (interval : ℚ)
    (cycles : List (Except String Snapshot × ℚ × ℚ)) (st : Store) :
    (run_updater_aircraft origin kb interval st cycles).2.length = cycles.length := by
  induction cycles generalizing st with
  | nil => rfl
  | cons c rest ih => simp [run_updater_aircraft, ih]

theorem run_updater_stats_length (specs : List (String × List String)) (tps : List String)
    (interval : ℚ) (cycles : List (Except String (List (String × SVal)) × ℚ × ℚ))
    (st : StatsStore) :
    (run_updater_stats specs tps interval st cycles).2.length = cycles.length := by
  induction cycles generalizing st with
  | nil => rfl
  | cons c rest ih => simp [run_updater_stats, ih]

theorem summaryWrites_names (acc : AcState) (m : ℚ) :
    ∀ w ∈ summaryWrites acc m,
      w.key.name ∈ (["observed", "observed_with_pos", "observed_with_mlat",
        "max_range", "messages_total"] : List String) := by
  intro w hw
  simp only [summaryWrites, List.mem_cons, List.not_mem_nil, or_false] at hw
  rcases hw with h | h | h | h | h <;> subst h <;> simp

theorem perAircraftWrites_no_heading (kb : KB) (a : Observation)
    (hg : a.alt_geom = none) (hb : a.alt_baro = none) (hh : heading_value a = none) :
    perAircraftWrites kb a =
      [⟨⟨"lat", plane_data kb a⟩, (a.lat : ℝ)⟩, ⟨⟨"lon", plane_data kb a⟩, (a.lon : ℝ)⟩] := by
  simp [perAircraftWrites, hg, hb, hh]

theorem lookupStr_self {α : Type} (k : String) (v : α) (m : List (String × α)) :
    lookupStr ((k, v) :: m) k = some v := by
  rw [lookupStr, List.find?_cons_of_pos _ (by simp)]
  rfl

/-! ## Claims -/

/-- C5 (confirmed): for two positions sharing a latitude, `relative_angle`
returns exactly 90 when the target longitude is greater than the origin
longitude and exactly 270 otherwise; in particular on two identical positions it
returns 270 through the same special-case branch, so the division of the general
formula is never evaluated. -/
theorem relative_angle_same_latitude (p1 p2 : Position)
    (h : p2.latitude = p1.latitude) :
    relative_angle p1 p2 = (if p2.longitude > p1.longitude then 90 else 270) ∧
    relative_angle p1 p1 = 270 := by
  constructor
  · simp only [relative_angle]
    rw [if_pos h]
  · simp only [relative_angle]
    simp [lt_irrefl]

theorem relative_angle_same_latitude_witness :
    ((Position.mk 10 11).latitude = (Position.mk 10 5).latitude) ∧
    (relative_angle ⟨10, 5⟩ ⟨10, 11⟩ =
        (if (Position.mk 10 11).longitude > (Position.mk 10 5).longitude then 90 else 270) ∧
      relative_angle ⟨10, 5⟩ ⟨10, 5⟩ = 270) :=
  ⟨rfl, relative_angle_same_latitude ⟨10, 5⟩ ⟨10, 11⟩ rfl⟩

/-- C6 (confirmed): `relative_angle` always lands in `[0, 360)`; for every angle
in that interval the 16-entry lookup `relative_direction` is in bounds (returns
`some`, never the out-of-range `none`) and yields one of the eight compass
labels; and `relative_direction 0 = N`. Hence composing the octant lookup after
the bearing never indexes out of range. -/
theorem relative_angle_octant_safety :
    (∀ p1 p2 : Position, 0 ≤ relative_angle p1 p2 ∧ relative_angle p1 p2 < 360) ∧
    (∀ a : ℝ, 0 ≤ a → a < 360 →
      (relative_direction a).isSome = true ∧
      ((relative_direction a).getD "N") ∈
        (["N", "NE", "E", "SE", "S", "SW", "W", "NW"] : List String)) ∧
    relative_direction 0 = some "N" :=
  ⟨relative_angle_range, relative_direction_valid, relative_direction_zero⟩

theorem relative_angle_octant_safety_witness :
    ((0:ℝ) ≤ 45 ∧ (45:ℝ) < 360) ∧
    ((relative_direction 45).isSome = true ∧
      ((relative_direction 45).getD "N") ∈
        (["N", "NE", "E", "SE", "S", "SW", "W", "NW"] : List String)) ∧
    (0 ≤ relative_angle ⟨10, 5⟩ ⟨20, 6⟩ ∧ relative_angle ⟨10, 5⟩ ⟨20, 6⟩ < 360) :=
  ⟨⟨by norm_num, by norm_num⟩,
   relative_angle_octant_safety.2.1 45 (by norm_num) (by norm_num),
   relative_angle_octant_safety.1 ⟨10, 5⟩ ⟨20, 6⟩⟩

/-- C7 (confirmed): processing the same aircraft snapshot twice in a row with
the same origin and knowledge base leaves the metric store identical to
processing it once — every `Gauge.set` is an overwrite keyed by (name, labels),
so repeated processing accumulates nothing. -/
theorem process_aircraft_idempotent (st : Store) (doc : Snapshot)
    (origin : Option Position) (kb : KB) (threshold : ℚ) :
    process_aircraft (process_aircraft st doc origin kb threshold) doc origin kb threshold =
      process_aircraft st doc origin kb threshold := by
  simp only [process_aircraft]
  exact applyWrites_idem st (aircraftWrites doc origin kb threshold)

/-- C9 (confirmed): an error raised by a cycle's fetch/process step is caught
inside the cycle: the store is left exactly as it was, the loop still computes
that cycle's wait time `(start + interval) - now` and carries on with the
remaining cycles, and every cycle of a trace yields exactly one wait — for both
the aircraft loop and the stats loop. -/
theorem updater_error_isolation (origin : Option Position) (kb : KB) (interval : ℚ)
    (st : Store) (e : String) (s n : ℚ)
    (rest : List (Except String Snapshot × ℚ × ℚ))
    (specs : List (String × List String)) (tps : List String) (sst : StatsStore)
    (e2 : String) (rest2 : List (Except String (List (String × SVal)) × ℚ × ℚ)) :
    run_updater_aircraft origin kb interval st ((Except.error e, s, n) :: rest) =
      ((run_updater_aircraft origin kb interval st rest).1,
        (s + interval - n) :: (run_updater_aircraft origin kb interval st rest).2) ∧
    (run_updater_aircraft origin kb interval st rest).2.length = rest.length ∧
    run_updater_stats specs tps interval sst ((Except.error e2, s, n) :: rest2) =
      ((run_updater_stats specs tps interval sst rest2).1,
        (s + interval - n) :: (run_updater_stats specs tps interval sst rest2).2) ∧
    (run_updater_stats specs tps interval sst rest2).2.length = rest2.length :=
  ⟨rfl, run_updater_aircraft_length _ _ _ _ _, rfl, run_updater_stats_length _ _ _ _ _⟩

/-- Observation used as the counterexample to C2: message age 20 (stale) but
position age 1 (fresh). -/
def obsC2 : Observation :=
  ⟨"aaa111", none, 1, 1, none, none, none, none, none, 20, some 1, none⟩

/-- C2 counterexample: the two recency checks are independent `if` statements,
not nested: this observation has message age 20 ≥ 15, so it is NOT counted as
observed, yet its position age 1 makes it count toward observed_with_position —
contradicting the claim that only observations already counted as observed can
count toward observed_with_position. -/
theorem observed_with_pos_counterexample :
    process_aircraft emptyStore ⟨0, [obsC2]⟩ none [] 15 ⟨"observed", latestLabels⟩ = some 0 ∧
    process_aircraft emptyStore ⟨0, [obsC2]⟩ none [] 15
      ⟨"observed_with_pos", latestLabels⟩ = some 1 := by
  constructor
  · rw [lookup_observed]
    have h1 : (aircraftState ⟨0, [obsC2]⟩ none [] 15).observed = 0 := by
      simp only [aircraftState, List.foldl_cons, List.foldl_nil]
      rw [stepAircraft_observed]
      norm_num [initAcState, obsC2]
    rw [h1]
    norm_num
  · rw [lookup_with_pos]
    have h1 : (aircraftState ⟨0, [obsC2]⟩ none [] 15).with_pos = 1 := by
      simp only [aircraftState, List.foldl_cons, List.foldl_nil]
      rw [stepAircraft_with_pos]
      rw [(by decide : seenPosOk obsC2 15 = true)]
      norm_num [initAcState]
    rw [h1]
    norm_num

/-- C2 amended (proved): for every snapshot, the observed gauge counts exactly
the observations with message age strictly below 15, and — independently, not
restricted to observations already counted as observed — observed_with_position
counts exactly the observations whose position age is present, nonzero (the
code tests its truthiness first) and strictly below 15. -/
theorem observed_with_pos_counts (doc : Snapshot) (origin : Option Position)
    (kb : KB) (st : Store) :
    process_aircraft st doc origin kb 15 ⟨"observed", latestLabels⟩ =
      some ((doc.aircraft.countP fun a => decide (a.seen < 15) : ℕ) : ℝ) ∧
    process_aircraft st doc origin kb 15 ⟨"observed_with_pos", latestLabels⟩ =
      some ((doc.aircraft.countP fun a => seenPosOk a 15 : ℕ) : ℝ) := by
  constructor
  · rw [lookup_observed, aircraftState, foldl_observed]
    norm_num [initAcState]
  · rw [lookup_with_pos, aircraftState, foldl_with_pos]
    norm_num [initAcState]

/-- C10 (confirmed): an observation with position age exactly 0 — known and
below the threshold — is excluded from the observed_with_position count and
emits none of its per-aircraft gauges, because the position branch first tests
the truthiness of `seen_pos` and `0` is falsy. -/
theorem seen_pos_zero_excluded (st : Store) (origin : Option Position) (kb : KB)
    (m : ℚ) (a : Observation) (h : a.seen_pos = some 0) :
    (aircraftState ⟨m, [a]⟩ origin kb 15).writes = [] ∧
    process_aircraft st ⟨m, [a]⟩ origin kb 15 ⟨"observed_with_pos", latestLabels⟩ = some 0 := by
  have hsp : seenPosOk a 15 = false := by
    simp [seenPosOk, h]
  constructor
  · simp only [aircraftState, List.foldl_cons, List.foldl_nil]
    rw [stepAircraft_writes, hsp]
    simp [initAcState]
  · rw [lookup_with_pos, aircraftState, foldl_with_pos]
    simp [initAcState, List.countP_cons, hsp]

/-- Observation with a fresh but exactly-zero position age, used as the C10
witness input. -/
def obsC10 : Observation :=
  ⟨"bbb222", none, 2, 3, none, none, none, none, none, 1, some 0, none⟩

theorem seen_pos_zero_excluded_witness :
    (obsC10.seen_pos = some 0) ∧
    ((aircraftState ⟨7, [obsC10]⟩ none [] 15).writes = [] ∧
      process_aircraft emptyStore ⟨7, [obsC10]⟩ none [] 15
        ⟨"observed_with_pos", latestLabels⟩ = some 0) :=
  ⟨rfl, seen_pos_zero_excluded emptyStore none [] 7 obsC10 rfl⟩

/-- Observation for C1's failing input: recent position, `track` absent,
`true_heading` present with value 100. -/
def obsC1 : Observation :=
  ⟨"abc123", none, 10, 10, none, none, none, some 100, none, 1, some 1, none⟩

/-- C1 (code bug): for the recent position-holding observation `obsC1` whose
`track` is absent but whose `true_heading` is 100, the heading gauge is never
written: the claim (and the code's own elif chain) expect a fallback to
`true_heading`, but normalization materializes the `"track"` key for every
entry, so `"track" in a` is unconditionally true, `heading` becomes `None`, and
the fallback branches are unreachable dead code. -/
theorem heading_track_only_bug :
    obsC1.track = none ∧ obsC1.true_heading = some 100 ∧
    heading_value obsC1 = none ∧
    process_aircraft emptyStore ⟨5, [obsC1]⟩ none [] 15
      ⟨"heading", [("hex", "abc123")]⟩ = none := by
  refine ⟨rfl, rfl, rfl, ?_⟩
  rw [process_aircraft, applyWrites_apply]
  have haw : (aircraftState ⟨5, [obsC1]⟩ none [] 15).writes = perAircraftWrites [] obsC1 := by
    simp only [aircraftState, List.foldl_cons, List.foldl_nil]
    rw [stepAircraft_writes, (by decide : seenPosOk obsC1 15 = true)]
    simp [initAcState]
  have hnone : findLast (aircraftWrites ⟨5, [obsC1]⟩ none [] 15)
      ⟨"heading", [("hex", "abc123")]⟩ = none := by
    apply findLast_eq_none
    intro w hw hcontra
    simp only [aircraftWrites, List.mem_append] at hw
    rcases hw with (h | h) | h
    · rw [haw, perAircraftWrites_no_heading [] obsC1 rfl rfl rfl] at h
      simp only [List.mem_cons, List.not_mem_nil, or_false] at h
      rcases h with h | h <;> subst h <;> simp at hcontra
    · have hmem := summaryWrites_names _ _ w h
      rw [hcontra] at hmem
      simp at hmem
    · have hmem := directionWrites_names _ w h
      rw [hcontra] at hmem
      simp at hmem
  rw [hnone]
  rfl

/-- C8 (confirmed): the enrichment lookup upper-cases the observed identifier
before probing the knowledge base, so it is case-insensitive in the observed
identifier; and when the identifier is absent from the knowledge base the
per-aircraft label set is exactly the one an empty knowledge base produces —
it never carries `reg` or `type` labels — while the latitude, longitude,
altitude and heading gauges are still emitted by the position branch. -/
theorem kb_enrichment (kb : KB) (h1 h2 : String) (a : Observation)
    (origin : Option Position) (stA : AcState) (q t : ℚ) :
    (pyUpper h1 = pyUpper h2 → kbLookup kb h1 = kbLookup kb h2) ∧
    (kbLookup kb a.hex = none → plane_data kb a = plane_data [] a) ∧
    (kbLookup kb a.hex = none →
      ((plane_data kb a).all fun kv => !(kv.1 == "reg") && !(kv.1 == "type")) = true) ∧
    (seenPosOk a 15 = true →
      (stepAircraft origin kb 15 stA a).writes = stA.writes ++ perAircraftWrites kb a) ∧
    (⟨⟨"lat", plane_data kb a⟩, (a.lat : ℝ)⟩ : GaugeWrite) ∈ perAircraftWrites kb a ∧
    (⟨⟨"lon", plane_data kb a⟩, (a.lon : ℝ)⟩ : GaugeWrite) ∈ perAircraftWrites kb a ∧
    (a.alt_geom = none → a.alt_baro = some (AltVal.num q) →
      (⟨⟨"alt", plane_data kb a⟩, (q : ℝ)⟩ : GaugeWrite) ∈ perAircraftWrites kb a) ∧
    (a.track = some t →
      (⟨⟨"heading", plane_data kb a⟩, (t : ℝ)⟩ : GaugeWrite) ∈ perAircraftWrites kb a) := by
  refine ⟨?_, ?_, ?_, ?_, ?_, ?_, ?_, ?_⟩
  · intro h
    simp only [kbLookup]
    rw [h]
  · intro h
    have h0 : kbLookup ([] : KB) a.hex = none := rfl
    simp [plane_data, h, h0]
  · intro h
    simp only [plane_data, h]
    rcases hf : a.flight with _ | s
    · simp
    · by_cases hs : s = ""
      · simp [hs]
      · by_cases ht : s.trim = "" <;> simp [hs, ht]
  · intro h
    rw [stepAircraft_writes, h]
    simp
  · simp [perAircraftWrites]
  · simp [perAircraftWrites]
  · intro hg hb
    simp [perAircraftWrites, hg, hb]
  · intro ht
    have hc : AircraftKeys.contains "track" = true := by decide
    simp [perAircraftWrites, heading_value, hc, ht]

/-- Knowledge base used by the C8 witness: one aircraft, not the observed one. -/
def kbC8 : KB := [("ABC124", ⟨some "SP-ABC", some "B738"⟩)]

/-- Observation used by the C8 witness: lower-case identifier missing from the
knowledge base, recent position, barometric altitude and a track. -/
def obsC8 : Observation :=
  ⟨"abc123", none, 10, 11, some (AltVal.num 5000), none, some 90, none, none, 1, some 2, none⟩

theorem kb_enrichment_witness :
    (pyUpper "abc123" = pyUpper "ABC123" ∧ kbLookup kbC8 obsC8.hex = none ∧
      seenPosOk obsC8 15 = true ∧ obsC8.alt_geom = none ∧
      obsC8.alt_baro = some (AltVal.num 5000) ∧ obsC8.track = some 90) ∧
    (kbLookup kbC8 "abc123" = kbLookup kbC8 "ABC123" ∧
     plane_data kbC8 obsC8 = plane_data [] obsC8 ∧
     ((plane_data kbC8 obsC8).all fun kv => !(kv.1 == "reg") && !(kv.1 == "type")) = true ∧
     (stepAircraft none kbC8 15 initAcState obsC8).writes =
       initAcState.writes ++ perAircraftWrites kbC8 obsC8 ∧
     (⟨⟨"lat", plane_data kbC8 obsC8⟩, (obsC8.lat : ℝ)⟩ : GaugeWrite) ∈
       perAircraftWrites kbC8 obsC8 ∧
     (⟨⟨"lon", plane_data kbC8 obsC8⟩, (obsC8.lon : ℝ)⟩ : GaugeWrite) ∈
       perAircraftWrites kbC8 obsC8 ∧
     (⟨⟨"alt", plane_data kbC8 obsC8⟩, ((5000 : ℚ) : ℝ)⟩ : GaugeWrite) ∈
       perAircraftWrites kbC8 obsC8 ∧
     (⟨⟨"heading", plane_data kbC8 obsC8⟩, ((90 : ℚ) : ℝ)⟩ : GaugeWrite) ∈
       perAircraftWrites kbC8 obsC8) := by
  have H := kb_enrichment kbC8 "abc123" "ABC123" obsC8 none initAcState 5000 90
  have e1 : pyUpper "abc123" = pyUpper "ABC123" := by decide
  have e2 : kbLookup kbC8 obsC8.hex = none := by decide
  exact ⟨⟨e1, e2, by decide, rfl, rfl, rfl⟩,
    H.1 e1, H.2.1 e2, H.2.2.1 e2, H.2.2.2.1 (by decide),
    H.2.2.2.2.1, H.2.2.2.2.2.1, H.2.2.2.2.2.2.1 rfl rfl, H.2.2.2.2.2.2.2 rfl⟩

/-- C4 counterexample: a statistics document whose `last1min` period is present
but empty. The value for the configured (`local`, `signal`) pair is absent, yet
`process_stats` raises an uncaught `KeyError` while resolving the `local` group
— `d = tp_stats[key] if key else tp_stats` runs outside the try/except — so the
cycle fails and no not-a-number is recorded for `signal`. -/
theorem stats_missing_group_raises :
    (process_stats StatsSpecsModel [("last1min", SVal.obj [])] ["last1min"]).error =
      some "KeyError" ∧
    ((process_stats StatsSpecsModel [("last1min", SVal.obj [])] ["last1min"]).writes.all
        fun w => !(w.name == "signal")) = true :=
  ⟨rfl, rfl⟩

/-- C4 amended (proved): when the configured group object is present (or the
group is the top-level time-period object, empty key), a missing metric name
does not raise: the gauge is set to not-a-number, silently for `signal` and
`peak_signal` and with a logged diagnostic for any other name. But when a
configured non-top-level group key is itself absent from the time-period
object, `process_stats` raises an uncaught `KeyError` and the cycle fails. -/
theorem stats_missing_field_handling (tp key name : String) (g g2 : List (String × SVal)) :
    (key ≠ "" → lookupStr g name = none →
      process_stats [(key, [name])] [(tp, SVal.obj [(key, SVal.obj g)])] [tp] =
        ⟨[⟨key, name, tp, SGVal.nan⟩],
         (if name ∈ ["peak_signal", "signal"] then [] else [name]), none⟩) ∧
    (lookupStr g name = none →
      process_stats [("", [name])] [(tp, SVal.obj g)] [tp] =
        ⟨[⟨"", name, tp, SGVal.nan⟩],
         (if name ∈ ["peak_signal", "signal"] then [] else [name]), none⟩) ∧
    (key ≠ "" → lookupStr g2 key = none →
      (process_stats [(key, [name])] [(tp, SVal.obj g2)] [tp]).error = some "KeyError") := by
  refine ⟨?_, ?_, ?_⟩
  · intro hk hn
    simp [process_stats, statsGroups, statsGroupResolve, andThenRun, statsNames,
      statsName, lookupStr_self, hk, hn]
  · intro hn
    simp [process_stats, statsGroups, statsGroupResolve, andThenRun, statsNames,
      statsName, lookupStr_self, hn]
  · intro hk hg2
    simp [process_stats, statsGroups, statsGroupResolve, andThenRun, lookupStr_self, hk, hg2]

theorem stats_missing_field_handling_witness :
    (("local" ≠ "") ∧ lookupStr ([] : List (String × SVal)) "signal" = none) ∧
    (process_stats [("local", ["signal"])]
        [("last1min", SVal.obj [("local", SVal.obj [])])] ["last1min"] =
      ⟨[⟨"local", "signal", "last1min", SGVal.nan⟩],
       (if "signal" ∈ ["peak_signal", "signal"] then [] else ["signal"]), none⟩) ∧
    (process_stats [("local", ["signal"])] [("last1min", SVal.obj [])] ["last1min"]).error =
      some "KeyError" := by
  have H := stats_missing_field_handling "last1min" "local" "signal" [] []
  exact ⟨⟨by decide, rfl⟩, H.1 (by decide) rfl, H.2.2 (by decide) rfl⟩

/-- The single observation of the C3 end-to-end scenario. -/
def obsC3 : Observation :=
  ⟨"abc123", none, 10, 10, some (AltVal.num 5000), none, none, none, none, 1, some 1, none⟩

/-- The origin of the C3 end-to-end scenario. -/
def originC3 : Position := ⟨10, 11⟩

/-- The aircraft document of the C3 end-to-end scenario. -/
def docC3 : Snapshot := ⟨5, [obsC3]⟩

/-- C3 (confirmed): processing the document `{"messages": 5, "aircraft":
[{"hex": "abc123", "lat": 10.0, "lon": 10.0, "alt_baro": 5000, "seen": 1,
"seen_pos": 1, "mlat": null}]}` with origin (10.0, 11.0) sets observed = 1,
observed_with_position = 1, observed_with_multilateration = 0, max_range equal
to the haversine distance between (10, 10) and (10, 11), messages_total = 5,
and classifies the aircraft into octant "W" via bearing 270. -/
theorem process_aircraft_end_to_end :
    process_aircraft emptyStore docC3 (some originC3) [] 15 ⟨"observed", latestLabels⟩ =
      some 1 ∧
    process_aircraft emptyStore docC3 (some originC3) [] 15
      ⟨"observed_with_pos", latestLabels⟩ = some 1 ∧
    process_aircraft emptyStore docC3 (some originC3) [] 15
      ⟨"observed_with_mlat", latestLabels⟩ = some 0 ∧
    process_aircraft emptyStore docC3 (some originC3) [] 15 ⟨"max_range", latestLabels⟩ =
      some (haversine_distance ⟨10, 10⟩ ⟨10, 11⟩ 6371000) ∧
    process_aircraft emptyStore docC3 (some originC3) [] 15
      ⟨"messages_total", latestLabels⟩ = some 5 ∧
    relative_angle originC3 ⟨10, 10⟩ = 270 ∧
    relative_direction 270 = some "W" ∧
    process_aircraft emptyStore docC3 (some originC3) [] 15
      ⟨"observed_with_direction", [("time_period", "latest"), ("direction", "W")]⟩ =
      some 1 := by
  have hsp : seenPosOk obsC3 15 = true := by decide
  have hml : mlatOk obsC3 = false := by decide
  have hseen : obsC3.seen < 15 := by norm_num [obsC3]
  have hpos : (⟨(obsC3.lat : ℝ), (obsC3.lon : ℝ)⟩ : Position) = (⟨10, 10⟩ : Position) := by
    simp only [obsC3]
    norm_num [Position.mk.injEq]
  have hang : relative_angle originC3 ⟨10, 10⟩ = 270 := by
    simp only [relative_angle, originC3]
    norm_num
  have hdir : relative_direction 270 = some "W" := by
    have h1 : (270 : ℝ) / 22.5 = 12 := by norm_num
    simp only [relative_direction, pytrunc, h1]
    rw [if_pos (by norm_num : (0:ℝ) ≤ 12)]
    have h2 : ⌊(12:ℝ)⌋ = (12:ℤ) := by
      rw [show (12:ℝ) = ((12:ℤ) : ℝ) by norm_num]
      exact Int.floor_intCast 12
    rw [h2]
    rfl
  have hd0 : 0 ≤ haversine_distance originC3 (⟨10, 10⟩ : Position) 6371000 :=
    haversine_nonneg _ _ _ (by norm_num)
  have hacc : aircraftState docC3 (some originC3) [] 15 =
      stepAircraft (some originC3) [] 15 initAcState obsC3 := by
    simp [aircraftState, docC3]
  have hobs : (aircraftState docC3 (some originC3) [] 15).observed = 1 := by
    rw [hacc, stepAircraft_observed, if_pos hseen]
    norm_num [initAcState]
  have hwp : (aircraftState docC3 (some originC3) [] 15).with_pos = 1 := by
    rw [hacc, stepAircraft_with_pos, hsp]
    norm_num [initAcState]
  have hwm : (aircraftState docC3 (some originC3) [] 15).with_mlat = 0 := by
    rw [hacc, stepAircraft_with_mlat, hsp, hml]
    simp [initAcState]
  have hmr : (aircraftState docC3 (some originC3) [] 15).max_range =
      haversine_distance originC3 (⟨10, 10⟩ : Position) 6371000 := by
    rw [hacc]
    simp only [stepAircraft, hsp, hml, if_true, Bool.false_eq_true, if_false,
      eq_self_iff_true]
    rw [originUpdate_max_range, hpos, if_pos hseen]
    simp only [initAcState]
    rcases lt_or_eq_of_le hd0 with hlt | heq
    · rw [if_pos hlt]
    · rw [← heq]
      simp
  have hdc : (aircraftState docC3 (some originC3) [] 15).dirCount "W" = 1 := by
    rw [hacc]
    simp only [stepAircraft, hsp, hml, if_true, Bool.false_eq_true, if_false,
      eq_self_iff_true]
    rw [originUpdate_dirCount, hpos, hang, hdir]
    simp only [Option.getD_some, if_pos hseen, initAcState, Function.update_same]
  refine ⟨?_, ?_, ?_, ?_, ?_, hang, hdir, ?_⟩
  · rw [lookup_observed, hobs]
    norm_num
  · rw [lookup_with_pos, hwp]
    norm_num
  · rw [lookup_with_mlat, hwm]
    norm_num
  · rw [lookup_max_range, hmr, haversine_comm]
    rfl
  · rw [lookup_messages]
    norm_num [docC3]
  · rw [lookup_direction_W, hdc]
    norm_num
